import Mathlib

/-!
Verification of the fanacrypt core against its specification.

The development shallowly embeds the TypeScript sources:
  * `src/lib/utils/file.ts`  — chunk codec (`splitFile`, `combineFiles`);
  * `src/lib/utils/zkp.ts`   — Schnorr-style zero-knowledge password proof
    (`bytesToBigInt`, `modPow`, `KDF`, `getPublicParameters`,
    `generatePublicKey`, `clientLoginStep1`, `clientLoginStep2`,
    `serverVerify`, `getSecureRandomBigInt`);
  * the server actions file — challenge/session store (`loginStep1`,
    `loginStep2`, `verifySession`, `changePassphrase`,
    `cleanupExpiredChallenges`);
  * `src/lib/utils/crypto.ts` — `UploadEncrypted` integrity checks.

JavaScript `BigInt` values occurring in the protocol are non-negative, so
they are modelled as `Nat` (JS truncated remainder and Lean `Nat.mod`
agree on non-negative operands); `getSecureRandomBigInt` keeps the `Int`
signature of the source because its error case is about `max < min`.
Byte arrays are `List Nat`, JS strings are `String`.  Randomness
(`crypto.getRandomValues`, `randomUUID`) and wall-clock time (`Date.now()`)
are passed in as explicit oracle parameters, and cryptographic hash
primitives (`SHA-256`) are abstracted as function parameters, since the
claims under verification quantify over their outputs.
-/

set_option maxRecDepth 40000

/-! ## Chunk codec: `src/lib/utils/file.ts` -/

/-- Model of a JS `File`: display name, MIME type, and byte content.
`size` is `content.length`; `lastModified` is irrelevant to the claims
and omitted. -/
structure JsFile where
  name : String
  type : String
  content : List Nat
  deriving Repr, DecidableEq

instance {ε α : Type} [DecidableEq ε] [DecidableEq α] : DecidableEq (Except ε α) := fun x y =>
  match x, y with
  | .error a, .error b => decidable_of_iff (a = b) (by simp)
  | .ok a, .ok b => decidable_of_iff (a = b) (by simp)
  | .error _, .ok _ => isFalse (by simp)
  | .ok _, .error _ => isFalse (by simp)

/-- `Math.ceil(a / b)` for natural `a`, positive `b`. -/
def ceilDiv (a b : Nat) : Nat := (a + b - 1) / b

/-- The `for (let i = 0; i < splitSize; i++)` loop body of `splitFile`,
with `remaining` counting the iterations left; `break` on `start >= end`
is the empty-list return. -/
def splitChunks (file : JsFile) (chunkSize : Nat) : Nat → Nat → List JsFile
  | _, 0 => []
  | i, remaining + 1 =>
    let start := i * chunkSize
    let stop := min ((i + 1) * chunkSize) file.content.length
    if start ≥ stop then []
    else
      { name := file.name ++ ".part" ++ toString (i + 1)
        type := file.type
        content := (file.content.drop start).take (stop - start) } ::
      splitChunks file chunkSize (i + 1) remaining

/-- `splitFile(file, splitSize)` from `file.ts`.  The `instanceof File`
guard always passes in this typed model.  Note the source computes
`chunkSize = Math.ceil(file.size / 5)` — the literal `5`, not
`splitSize`. -/
def splitFile (file : JsFile) (splitSize : Nat) : Except String (List JsFile) :=
  if file.content.length = 0 then .error "Cannot split empty file"
  else
    let chunkSize := ceilDiv file.content.length 5
    .ok (splitChunks file chunkSize 0 splitSize)

/-- `combineFiles(chunks, originalName)` from `file.ts`: rejects an empty
chunk list, an empty name, or inconsistent MIME types, then concatenates
the chunk payloads in list order. -/
def combineFiles (chunks : List JsFile) (originalName : String) : Except String JsFile :=
  match chunks with
  | [] => .error "No chunks provided"
  | c0 :: _ =>
    if originalName = "" then .error "Original filename is required"
    else if ¬ chunks.all (fun c => c.type = c0.type) then
      .error "Inconsistent file types among chunks"
    else
      .ok { name := originalName
            type := c0.type
            content := (chunks.map JsFile.content).flatten }

/-- C1: the spec demands chunks of length `ceil(size/n)` for split count
`n`, but `splitFile` computes the chunk size as `Math.ceil(file.size / 5)`
with a hard-coded `5`, ignoring its `splitSize` parameter: on a 10-byte
file with split count 2 it emits two chunks of 2 bytes each (covering only
4 of the 10 bytes) instead of two chunks of `ceil(10/2) = 5` bytes. -/
theorem splitFile_hardcoded_divisor :
    (splitFile { name := "f", type := "t", content := [0, 1, 2, 3, 4, 5, 6, 7, 8, 9] } 2).map
        (fun cs => cs.map (fun c => c.content.length)) = .ok [2, 2]
      ∧ ceilDiv 10 2 = 5 := by
  decide

/-- C3: the split/combine round trip fails for split counts below 5
because of the hard-coded divisor in `splitFile`: splitting the 2-byte
file `[0, 1]` with split count 1 yields a single 1-byte chunk, and
recombining returns `[0]`, not the original `[0, 1]`. -/
theorem splitFile_combineFiles_roundtrip_fails :
    (splitFile { name := "f", type := "t", content := [0, 1] } 1).bind
        (fun cs => combineFiles cs "f")
      = .ok { name := "f", type := "t", content := [0] }
      ∧ ([0] : List Nat) ≠ [0, 1] := by
  decide

/-- C9: `splitFile` rejects an empty input file with the error
"Cannot split empty file" for every split count; it never returns a chunk
list for empty input. -/
theorem splitFile_empty_error :
    ∀ (name type : String) (n : Nat),
      splitFile { name := name, type := type, content := [] } n
        = .error "Cannot split empty file" :=
  fun _ _ _ => rfl

/-- C8: whenever `combineFiles` returns a file, its byte content is the
concatenation of the chunks' payloads in the given list order; the result
is invariant under arbitrary renaming of the chunks' display names (order
is taken solely from list position, never parsed from a name suffix); and
on a non-empty chunk list with a non-empty target name and consistent
MIME types it does return that concatenation. -/
theorem combineFiles_concat_in_list_order :
    ∀ (c0 : JsFile) (cs : List JsFile) (originalName : String) (rn : String → String),
      (∀ f, combineFiles (c0 :: cs) originalName = .ok f →
          f.content = ((c0 :: cs).map JsFile.content).flatten)
      ∧ combineFiles ((c0 :: cs).map (fun c => { c with name := rn c.name })) originalName
          = combineFiles (c0 :: cs) originalName
      ∧ (originalName ≠ "" → (∀ c ∈ c0 :: cs, c.type = c0.type) →
          combineFiles (c0 :: cs) originalName
            = .ok { name := originalName, type := c0.type,
                    content := ((c0 :: cs).map JsFile.content).flatten }) := by
  intro c0 cs originalName rn
  refine ⟨?_, ?_, ?_⟩
  · intro f h
    simp only [combineFiles] at h
    split_ifs at h with h1 h2
    simp only [Except.ok.injEq] at h
    exact (congrArg JsFile.content h.symm)
  · simp only [combineFiles, List.map_cons, List.all_cons, List.all_map, List.map_map,
      Function.comp]
    rfl
  · intro hname htypes
    simp only [combineFiles, if_neg hname]
    rw [if_neg]
    simp only [not_not, List.all_eq_true, decide_eq_true_eq]
    exact htypes

/-- Witness for C8: combining two one-byte chunks of consistent type
yields the two bytes concatenated in list order. -/
theorem combineFiles_concat_in_list_order_witness :
    combineFiles [{ name := "a", type := "t", content := [1] },
                  { name := "b", type := "t", content := [2] }] "out"
      = .ok { name := "out", type := "t", content := [1, 2] } :=
  (combineFiles_concat_in_list_order { name := "a", type := "t", content := [1] }
      [{ name := "b", type := "t", content := [2] }] "out" id).2.2
    (by decide) (by decide)

/-! ## Zero-knowledge password proof: `src/lib/utils/zkp.ts` -/

/-- `bytesToBigInt(bytes)`: folds `(acc << 8n) + BigInt(byte)` over the
byte array (big-endian interpretation). -/
def bytesToBigInt (bytes : List Nat) : Nat :=
  bytes.foldl (fun acc byte => acc * 2 ^ 8 + byte) 0

/-- The `while (exponent > 0n)` loop of the source's square-and-multiply
`modPow`, made structurally recursive on a fuel argument; starting the
fuel at `exponent + 1` never exhausts it because the exponent at least
halves every iteration. -/
def modPowGo (modulus : Nat) : Nat → Nat → Nat → Nat → Nat
  | 0, result, _, _ => result
  | fuel + 1, result, base, e =>
    if e = 0 then result
    else
      modPowGo modulus fuel (if e % 2 = 1 then result * base % modulus else result)
        (base * base % modulus) (e / 2)

/-- `modPow(base, exponent, modulus)` from `zkp.ts`: binary
square-and-multiply modular exponentiation, returning 0 when the modulus
is 1. -/
def modPow (base exponent modulus : Nat) : Nat :=
  if modulus = 1 then 0
  else modPowGo modulus (exponent + 1) 1 (base % modulus) exponent

/-- The `{ p, q, g }` record returned by `getPublicParameters`. -/
structure PublicParameters where
  p : Nat
  q : Nat
  g : Nat

/-- `getPublicParameters()` from `zkp.ts`: the RFC-3526 group-14 subgroup
order `q` (2047-bit prime), the safe prime `p = 2q + 1`, and the
generator `g = 2`. -/
def getPublicParameters : PublicParameters :=
  let q : Nat := 0x7FFFFFFFFFFFFFFFE487ED5110B4611A62633145C06E0E68948127044533E63A0105DF531D89CD9128A5043CC71A026EF7CA8CD9E69D218D98158536F92F8A1BA7F09AB6B6A8E122F242DABB312F3F637A262174D31BF6B585FFAE5B7A035BF6F71C35FDAD44CFD2D74F9208BE258FF324943328F6722D9EE1003E5C50B1DF82CC6D241B0E2AE9CD348B1FD47E9267AFC1B2AE91EE51D6CB0E3179AB1042A95DCF6A9483B84B4B36B3861AA7255E4C0278BA3604650C10BE19482F23171B671DF1CF3B960C074301CD93C1D17603D147DAE2AEF837A62964EF15E5FB4AAC0B8C1CCAA4BE754AB5728AE9130C4C7D02880AB9472D455655347FFFFFFFFFFFFFFF
  let p : Nat := 2 * q + 1
  let g : Nat := 2
  { p := p, q := q, g := g }

/-- Shorthand for the group modulus `p`. -/
def pParam : Nat := getPublicParameters.p

/-- Shorthand for the subgroup order `q`. -/
def qParam : Nat := getPublicParameters.q

/-- `KDF(passphrase, q)` from `zkp.ts` with the SHA-256 step abstracted:
`digest` stands for the SHA-256 digest bytes of the passphrase (SHA-256
is an external primitive; the claims quantify over its output).  Maps the
digest to `(hash % (q - 1)) + 1`, landing in `[1, q-1]`. -/
def KDF (digest : List Nat) (q : Nat) : Nat :=
  bytesToBigInt digest % (q - 1) + 1

/-- `generatePublicKey(new_pw)` from `zkp.ts`, with the passphrase
represented by its SHA-256 digest bytes: `X = g^KDF(pw) mod p`. -/
def generatePublicKey (digest : List Nat) : Nat :=
  let params := getPublicParameters
  modPow params.g (KDF digest params.q) params.p

/-- `clientLoginStep1(pw)` from `zkp.ts`, with the passphrase represented
by its SHA-256 digest bytes and the secret nonce `v` (drawn in the source
by `getSecureRandomBigInt(1n, q - 1n)`) passed as an oracle parameter.
Returns `(x, v, V)` with `V = g^v mod p`. -/
def clientLoginStep1 (digest : List Nat) (v : Nat) : Nat × Nat × Nat :=
  let params := getPublicParameters
  let x := KDF digest params.q
  (x, v, modPow params.g v params.p)

/-- `clientLoginStep2(v, c, x)` from `zkp.ts`: the response
`b = (v + c*x) mod q`. -/
def clientLoginStep2 (v c x : Nat) : Nat :=
  (v + c * x) % getPublicParameters.q

/-- `serverVerify(V, X, c, b)` from `zkp.ts`: checks
`g^b mod p == (V * X^c mod p) mod p`. -/
def serverVerify (V X c b : Nat) : Bool :=
  let params := getPublicParameters
  modPow params.g b params.p == V * modPow X c params.p % params.p

/-- `range.toString(2).length` for a natural number: the length of the
binary digit string (which is "0", of length 1, for 0). -/
def bitLength (n : Nat) : Nat := (Nat.toDigits 2 n).length

/-- The `do … while (randomBigInt >= range)` rejection loop of
`getSecureRandomBigInt`.  `oracle k` stands for the byte array produced
by the k-th `crypto.getRandomValues` call; `fuel` bounds the number of
draws inspected, `none` meaning the loop has not yet accepted a draw
within the given fuel. -/
def rejectionSample (range : Int) (oracle : Nat → List Nat) : Nat → Nat → Option Int
  | 0, _ => none
  | fuel + 1, k =>
    let randomBigInt : Int := (bytesToBigInt (oracle k) : Nat)
    if randomBigInt ≥ range then rejectionSample range oracle fuel (k + 1)
    else some randomBigInt

/-- `getSecureRandomBigInt(min, max)` from `zkp.ts` (the identical copy
in the server actions file): errors when `range = max - min + 1 ≤ 0`,
otherwise rejection-samples `randomBigInt < range` and returns
`randomBigInt + min`.  The number of bytes per draw,
`Math.ceil(bitLength / 8) || 1`, determines the oracle's draw width. -/
def getSecureRandomBigInt (min max : Int) (oracle : Nat → List Nat) (fuel : Nat) :
    Except String (Option Int) :=
  let range := max - min + 1
  if range ≤ 0 then .error "max must be greater than or equal to min"
  else
    let bl := bitLength range.toNat
    let byteLength := if (bl + 7) / 8 = 0 then 1 else (bl + 7) / 8
    let _ := byteLength
    .ok ((rejectionSample range oracle fuel 0).map (· + min))

/-! ### Correctness of `modPow` and the order of the generator -/

theorem modPowGo_eq (m : Nat) (hm : 1 < m) :
    ∀ (fuel e r b : Nat), e < fuel → r < m →
      modPowGo m fuel r b e = r * b ^ e % m := by
  intro fuel
  induction fuel with
  | zero => intro e r b he _; exact absurd he (Nat.not_lt_zero e)
  | succ fuel ih =>
    intro e r b he hr
    simp only [modPowGo]
    split_ifs with h0 hpar
    · subst h0
      simp [Nat.mod_eq_of_lt hr]
    · rw [ih (e / 2) (r * b % m) (b * b % m) (by omega) (Nat.mod_lt _ (by omega))]
      have key : (r * b % m) * (b * b % m) ^ (e / 2) ≡ (r * b) * (b * b) ^ (e / 2) [MOD m] :=
        Nat.ModEq.mul (Nat.mod_modEq _ _) (Nat.ModEq.pow _ (Nat.mod_modEq _ _))
      have harith : (r * b) * (b * b) ^ (e / 2) = r * b ^ e := by
        rw [← pow_two, ← pow_mul]
        rw [show 2 * (e / 2) = e - 1 by omega, mul_assoc,
          ← pow_succ' b (e - 1), show e - 1 + 1 = e by omega]
      exact harith ▸ key
    · rw [ih (e / 2) r (b * b % m) (by omega) hr]
      have key : r * (b * b % m) ^ (e / 2) ≡ r * (b * b) ^ (e / 2) [MOD m] :=
        Nat.ModEq.mul (Nat.ModEq.refl r) (Nat.ModEq.pow _ (Nat.mod_modEq _ _))
      have harith : r * (b * b) ^ (e / 2) = r * b ^ e := by
        rw [← pow_two, ← pow_mul, show 2 * (e / 2) = e by omega]
      exact harith ▸ key

theorem modPow_eq (base e m : Nat) (hm : 1 < m) : modPow base e m = base ^ e % m := by
  unfold modPow
  rw [if_neg (by omega)]
  rw [modPowGo_eq m hm (e + 1) e 1 (base % m) (Nat.lt_succ_self e) hm, one_mul,
    ← Nat.pow_mod]

/-- `2^256`, the chunk width used to verify the 2047-bit exponentiation
`2^q mod p` in kernel-checkable pieces. -/
def two256 : Nat := 2 ^ 256

def qDigit0 : Nat := 0x1CCAA4BE754AB5728AE9130C4C7D02880AB9472D455655347FFFFFFFFFFFFFFF
def qDigit1 : Nat := 0xF1CF3B960C074301CD93C1D17603D147DAE2AEF837A62964EF15E5FB4AAC0B8C
def qDigit2 : Nat := 0xCF6A9483B84B4B36B3861AA7255E4C0278BA3604650C10BE19482F23171B671D
def qDigit3 : Nat := 0xCC6D241B0E2AE9CD348B1FD47E9267AFC1B2AE91EE51D6CB0E3179AB1042A95D
def qDigit4 : Nat := 0xF71C35FDAD44CFD2D74F9208BE258FF324943328F6722D9EE1003E5C50B1DF82
def qDigit5 : Nat := 0xA7F09AB6B6A8E122F242DABB312F3F637A262174D31BF6B585FFAE5B7A035BF6
def qDigit6 : Nat := 0x105DF531D89CD9128A5043CC71A026EF7CA8CD9E69D218D98158536F92F8A1B
def qDigit7 : Nat := 0x7FFFFFFFFFFFFFFFE487ED5110B4611A62633145C06E0E68948127044533E63A
def towerAcc0 : Nat := 0x1
def towerAcc1 : Nat := 0x16771C9D78799730AE49E22287D5A58A08359DF50F8EA43BE2752A03E8D94B3C96ACA91FA4481B0F40CF01B375B2F5CFE7683C39FFB8F3FB557E60E09543AC1A760DC959551F532217747741E01410629C96F1F589BBC9EB76285ACB03E381C76AC3D32F159656A3F3E16CBE24E62B927D979DAEFF1A578C8DFB5861D8C975C9D668959C3C850F11BE025DD3088DCF2A276AF2678F34530053400BB829628A744CA27EE28A813BE672B73902433BB5668EC61EACFBEF995AF8FF6024FB19A1ED4435C96E943C56CC1CD89E0B215E730AA183BBC0AD62EC7513F4226A7445A14452B1CE0EB3C2A7B6F247EA82372B0E7889E4D540E0983E78A1126591A0DFB398
def towerAcc2 : Nat := 0xCF9019E26CD3D8CDCFC91862776B7421EB38893F6076B554FF4FF175D504EE0266AC1D0A14B39FA6D1BC94658F1F84BA3FF7BDD4EF77F98F732891B05F180DA3BDFEEF21F05049C1A6AB9857C6BAD34F49E277011C2A5E29B1101C082BFF14A2D743207589D4A44FB4F1BB0B03CED7FE30CCBD2DF62980E2A74813FFC7307E2FEA3123DDDB9BAADC4CEEEF8111380BA9A33F2B3947BD8B128B95DD651B0D069939CAFA432303DB347503D0CB8B34FDAE018CF910B26EBFEC2026B6D3DCCB8E5FD10B8373BED68A01B4EC44FA3C115E1132CFAE4A88144E4747DE242C3F9C3F772EA814AACBBC5A0E16C6B85C3369CBAF83B13883AB4DB93ED9E3158021CBE92E
def towerAcc3 : Nat := 0xD99355D85C18ECE5A6BAB13C04BABB5045D06A74B31E36E70B59E7BBA62AA06BFD8A9F87DF8A13D0C496867229D6D0492F0C74DD52515BACC0660B6EE27E65970AAFFD629ADF989AA58F8DAB5D6B043E617A7ACC0FF13C3E4B5546C921D74AEDB92E70CEC597B2C2B390830D4629CB96421A35D261230478DEA3DFDFA29A90DDE1A027C57BEDC83D2CBE60C404FDF8EAA8592782AD74DDA6756B784497EFB4BEBFE4E76D8FB1758839D3ECADFF095C1D300176B8E150EDC2E1500FDB89D8E04E5AB43E23B70584B816583B68DB60CA1DC67D36834DC36F97CD5F866D48EDA5B8DB65D7DD78246B06A056629720643246D785A67FA2F30F005A128E3A7628C312
def towerAcc4 : Nat := 0xAA3E4F3D11A0F393A1869A5F3B5A105665B9DA5C48A6B0C3414CA92F863E380825A19AFEAD726D9AABA2B4B4F23AAD89036E8DB9D7D50269B954A891D273FDB27914B1BF9B4EFF4754900D649338BC90E04166BA9918D6F1A3A605E15083F5EF852803AC9BB708D9296BBBD30271F8DB4D497AEF2CDD0A8181E83742F29200BEE3F99B7F0415CE13AE27E091F360DE6B7D5BE3D6CE754A4C7772C427901F11A9168BA91CD790AE79669C2CE64A50C18262EB9C16F8ADFA4DF26DCBB28A53D1ED11DCE5A96E12EA0D42E5580E67F979235870FE0E12F940F99D7B1F4E5B87FB513836D49D59B798B992A7AD5715AEF727C51113D833F7CD7E955AA257AA530A09
def towerAcc5 : Nat := 0x8F5AB4601204F4CC97C7704B7512F6BB1EB968A1C5957F2F75A3A1E1167FC3D8026C26FBA026FD62AE81518495243E79B0EB1C3BE9066ED137AFD93948C8FBAB4A4C8D82F9155A77C5265035FD7BEA35FCFE91860DD78E9170297F808BA42B8EFE246C927EF013FAB41177B0812BD47576B3BCA39ED93875EDB4AFB88D70D561C9324BE603492A8F1D35B85785A970BA7169C000D969429F90FD4B0CAF06056972F0A07D408E79C310071DF2AADB6CEC915D815F7FAC302DA10A6BEBA78603967EE5E1B3F68EEED5FE5909EFDE3E98624C058B1EF1E586187AD7722823EC9AB19F7D8C28AB4CFD7FB76B6A0E387B958A099F58D5DD40D45E8C6395D7B10E61C7
def towerAcc6 : Nat := 0xD301AA955561EF53E669751C15555B286207B7632CE5E593EE119AFD1D304E82B77DF8EF3F043DE5930FA3292315AC2E07C519BACBE108253258F3D39E6FD4E92DC14297FED3881FEC96441D0C6AC4D25B91E26B0EB4C32FE7E84F77C124608E94B9FC329679FCA77B406597AD20F7875E11BB006F92452E10E7EA3AB8BBD15C73C35FEA609D176450EF1839258DD1D82EAE9FB2FE99E7263E0C27D47676DAD1B72A03F7945B03D4A809271201D4CA7FE3B7A3403F0C36910C55AC93F7C23444C4897D1C9A30A94A491EE8A9D9B13130FBEA9D95FCC532ED22E647356DCAC6AD0CB59B7EA67F63EFDCDDD42E3CDD7969FAE12D685092FD87EF0C7B08E3A11F59
def towerAcc7 : Nat := 0x1FE0B1DDB28AFE2C7BEBACE7AD03B069E28401AAFF8F8E31B8AB30EE9CA32EA112D88713DA89D8A48BD65A86FE45062AA61133C269B0D7D1544D7B0325B0BBE3CB2A1D5AB2F176B4DBADC28571CA7355EE9B3AEEBFEC9C7CAFBF62D5DF5CDED283D262BE51E675269FADB6C1795A9E57514EDD1CF288C8479BD41013FE3C01F0F920D8C63FF7EA73489A030CE401342CF5EAA9894636D9E29090B0AA2B19F1964E7E513CC6CA437FBBDB84B57AC069EE8321AC01BAF55AFE731E9D6AFEB6F9BA17FA3E8E840E4946F10E88513EB8C40A8EF35ABAA91034FD0E328C3F561C5DDEC213B703F706F421BA803FD7EDE455807FFFA3342587A95876CFFB38623A3735
theorem towerStep (a d x : Nat) (hx : x = 2 ^ a % pParam) :
    modPow x two256 pParam * modPow 2 d pParam % pParam = 2 ^ (a * two256 + d) % pParam := by
  have hp : 1 < pParam := by decide
  rw [modPow_eq _ _ _ hp, modPow_eq _ _ _ hp, hx]
  have key : (2 ^ a % pParam) ^ two256 % pParam * (2 ^ d % pParam)
      ≡ (2 ^ a) ^ two256 * 2 ^ d [MOD pParam] :=
    Nat.ModEq.mul ((Nat.mod_modEq _ _).trans ((Nat.mod_modEq _ _).pow _))
      (Nat.mod_modEq _ _)
  have harith : (2 ^ a) ^ two256 * 2 ^ d = 2 ^ (a * two256 + d) := by
    rw [← pow_mul, ← pow_add]
  exact harith ▸ key

theorem two_pow_q_mod_p : 2 ^ qParam % pParam = 1 := by
  have hp : 1 < pParam := by decide
  have h7 : modPow 2 qDigit7 pParam = towerAcc7 := by decide
  have h6 : modPow towerAcc7 two256 pParam * modPow 2 qDigit6 pParam % pParam = towerAcc6 := by
    decide
  have h5 : modPow towerAcc6 two256 pParam * modPow 2 qDigit5 pParam % pParam = towerAcc5 := by
    decide
  have h4 : modPow towerAcc5 two256 pParam * modPow 2 qDigit4 pParam % pParam = towerAcc4 := by
    decide
  have h3 : modPow towerAcc4 two256 pParam * modPow 2 qDigit3 pParam % pParam = towerAcc3 := by
    decide
  have h2 : modPow towerAcc3 two256 pParam * modPow 2 qDigit2 pParam % pParam = towerAcc2 := by
    decide
  have h1 : modPow towerAcc2 two256 pParam * modPow 2 qDigit1 pParam % pParam = towerAcc1 := by
    decide
  have h0 : modPow towerAcc1 two256 pParam * modPow 2 qDigit0 pParam % pParam = towerAcc0 := by
    decide
  have e7 : towerAcc7 = 2 ^ qDigit7 % pParam := by
    rw [← h7, modPow_eq _ _ _ hp]
  have e6 : towerAcc6 = 2 ^ (qDigit7 * two256 + qDigit6) % pParam :=
    h6.symm.trans (towerStep _ _ _ e7)
  have e5 : towerAcc5 = 2 ^ ((qDigit7 * two256 + qDigit6) * two256 + qDigit5) % pParam :=
    h5.symm.trans (towerStep _ _ _ e6)
  have e4 : towerAcc4 = 2 ^ (((qDigit7 * two256 + qDigit6) * two256 + qDigit5) * two256
      + qDigit4) % pParam :=
    h4.symm.trans (towerStep _ _ _ e5)
  have e3 : towerAcc3 = 2 ^ ((((qDigit7 * two256 + qDigit6) * two256 + qDigit5) * two256
      + qDigit4) * two256 + qDigit3) % pParam :=
    h3.symm.trans (towerStep _ _ _ e4)
  have e2 : towerAcc2 = 2 ^ (((((qDigit7 * two256 + qDigit6) * two256 + qDigit5) * two256
      + qDigit4) * two256 + qDigit3) * two256 + qDigit2) % pParam :=
    h2.symm.trans (towerStep _ _ _ e3)
  have e1 : towerAcc1 = 2 ^ ((((((qDigit7 * two256 + qDigit6) * two256 + qDigit5) * two256
      + qDigit4) * two256 + qDigit3) * two256 + qDigit2) * two256 + qDigit1) % pParam :=
    h1.symm.trans (towerStep _ _ _ e2)
  have e0 : towerAcc0 = 2 ^ (((((((qDigit7 * two256 + qDigit6) * two256 + qDigit5) * two256
      + qDigit4) * two256 + qDigit3) * two256 + qDigit2) * two256 + qDigit1) * two256
      + qDigit0) % pParam :=
    h0.symm.trans (towerStep _ _ _ e1)
  have hq : ((((((qDigit7 * two256 + qDigit6) * two256 + qDigit5) * two256
      + qDigit4) * two256 + qDigit3) * two256 + qDigit2) * two256 + qDigit1) * two256
      + qDigit0 = qParam := by decide
  have hacc : towerAcc0 = 1 := by decide
  rw [hq] at e0
  rw [← e0, hacc]

theorem two_pow_qParam_modEq_one : 2 ^ qParam ≡ 1 [MOD pParam] := by
  have hp : 1 < pParam := by decide
  show 2 ^ qParam % pParam = 1 % pParam
  rw [two_pow_q_mod_p, Nat.mod_eq_of_lt hp]

theorem pow_two_mod_q_reduce (n : Nat) :
    2 ^ (n % qParam) % pParam = 2 ^ n % pParam := by
  have h : 2 ^ n ≡ 2 ^ (n % qParam) [MOD pParam] := by
    calc 2 ^ n = 2 ^ (qParam * (n / qParam) + n % qParam) := by rw [Nat.div_add_mod]
    _ = (2 ^ qParam) ^ (n / qParam) * 2 ^ (n % qParam) := by rw [pow_add, pow_mul]
    _ ≡ 1 ^ (n / qParam) * 2 ^ (n % qParam) [MOD pParam] :=
        (two_pow_qParam_modEq_one.pow _).mul_right _
    _ = 2 ^ (n % qParam) := by rw [one_pow, one_mul]
  exact h.symm

/-- C2: protocol soundness, positive direction.  For every passphrase
(represented by its SHA-256 digest), nonce `v` in `[1, q-1]` and
challenge `c` in `[1, q-1]`, an honest commit/challenge/response run —
`X = g^KDF(digest) mod p`, `V = g^v mod p`, `b = (v + c*x) mod q` —
passes `serverVerify`. -/
theorem serverVerify_honest_run (digest : List Nat) (v c : Nat)
    (hv1 : 1 ≤ v) (hv2 : v ≤ qParam - 1) (hc1 : 1 ≤ c) (hc2 : c ≤ qParam - 1) :
    serverVerify (clientLoginStep1 digest v).2.2 (generatePublicKey digest) c
      (clientLoginStep2 v c (clientLoginStep1 digest v).1) = true := by
  have hp : 1 < pParam := by decide
  show (modPow 2 ((v + c * KDF digest qParam) % qParam) pParam
      == modPow 2 v pParam * modPow (modPow 2 (KDF digest qParam) pParam) c pParam % pParam)
      = true
  rw [beq_iff_eq]
  rw [modPow_eq _ _ _ hp, modPow_eq _ _ _ hp, modPow_eq _ _ _ hp, modPow_eq _ _ _ hp]
  rw [pow_two_mod_q_reduce]
  have key : 2 ^ v % pParam * ((2 ^ KDF digest qParam % pParam) ^ c % pParam)
      ≡ 2 ^ v * (2 ^ KDF digest qParam) ^ c [MOD pParam] :=
    Nat.ModEq.mul (Nat.mod_modEq _ _)
      ((Nat.mod_modEq _ _).trans ((Nat.mod_modEq _ _).pow _))
  have harith : 2 ^ v * (2 ^ KDF digest qParam) ^ c = 2 ^ (v + c * KDF digest qParam) := by
    rw [← pow_mul, ← pow_add, Nat.mul_comm (KDF digest qParam) c]
  exact (harith ▸ key).symm

/-- Witness for C2: a concrete honest run (empty digest, `v = c = 1`)
verifies. -/
theorem serverVerify_honest_run_witness :
    serverVerify (clientLoginStep1 [] 1).2.2 (generatePublicKey []) 1
      (clientLoginStep2 1 1 (clientLoginStep1 [] 1).1) = true :=
  serverVerify_honest_run [] 1 1 (by decide) (by decide) (by decide) (by decide)

theorem rejectionSample_bounds (range : Int) (oracle : Nat → List Nat) :
    ∀ (fuel k : Nat) (v : Int), rejectionSample range oracle fuel k = some v →
      0 ≤ v ∧ v < range := by
  intro fuel
  induction fuel with
  | zero => intro k v h; exact absurd h (by simp [rejectionSample])
  | succ fuel ih =>
    intro k v h
    simp only [rejectionSample] at h
    split_ifs at h with hge
    · exact ih (k + 1) v h
    · cases h
      exact ⟨Int.natCast_nonneg _, by omega⟩

/-- C6: `getSecureRandomBigInt(min, max)` errors exactly when
`max < min`; whenever it returns a value (for any random oracle and any
number of rejection-loop iterations), that value lies in `[min, max]` —
each accepted draw `r` satisfies `0 ≤ r < max - min + 1` and the result
is `r + min`. -/
theorem getSecureRandomBigInt_range_behavior :
    ∀ (min max : Int) (oracle : Nat → List Nat) (fuel : Nat),
      (getSecureRandomBigInt min max oracle fuel
          = .error "max must be greater than or equal to min" ↔ max < min)
      ∧ (∀ v, getSecureRandomBigInt min max oracle fuel = .ok (some v) →
          min ≤ v ∧ v ≤ max) := by
  intro mn mx oracle fuel
  simp only [getSecureRandomBigInt]
  split_ifs with hr
  · exact ⟨by simp; omega, fun v h => absurd h (by simp)⟩
  · refine ⟨⟨fun h => absurd h (by simp), fun h => absurd h (by omega)⟩, ?_⟩
    intro v h
    simp only [Except.ok.injEq, Option.map_eq_some'] at h
    obtain ⟨r, hr', rfl⟩ := h
    have hb := rejectionSample_bounds _ oracle fuel 0 r hr'
    omega

/-- Witness for C6: with range `[1, 3]` and a draw of the single byte 2,
the sampler returns `2 + 1 = 3`, which lies in `[1, 3]`. -/
theorem getSecureRandomBigInt_range_behavior_witness :
    (1 : Int) ≤ 3 ∧ (3 : Int) ≤ 3 :=
  (getSecureRandomBigInt_range_behavior 1 3 (fun _ => [2]) 1).2 3 (by decide)

/-! ## Challenge & session store: the server auth actions file -/

/-- An entry of the `loginChallenges` map: commitment `V`, challenge `c`,
absolute expiry timestamp. -/
structure LoginChallenge where
  V : Nat
  c : Nat
  expiresAt : Nat
  deriving Repr, DecidableEq

/-- An entry of the `sessions` map: absolute expiry timestamp. -/
structure SessionData where
  expiresAt : Nat
  deriving Repr, DecidableEq

/-- `CHALLENGE_EXPIRY_MS = 5 * 60 * 1000` (5 minutes). -/
def CHALLENGE_EXPIRY_MS : Nat := 5 * 60 * 1000

/-- `SESSION_EXPIRY_MS = 24 * 60 * 60 * 1000` (24 hours). -/
def SESSION_EXPIRY_MS : Nat := 24 * 60 * 60 * 1000

/-- JS `Map.get`: association-list lookup. -/
def mapGet {α : Type} (m : List (String × α)) (k : String) : Option α :=
  (m.find? (fun e => e.1 == k)).map (fun e => e.2)

/-- JS `Map.set`: replace the value at an existing key, else append. -/
def mapSet {α : Type} (m : List (String × α)) (k : String) (v : α) :
    List (String × α) :=
  if m.any (fun e => e.1 == k) then m.map (fun e => if e.1 == k then (k, v) else e)
  else m ++ [(k, v)]

/-- JS `Map.delete`. -/
def mapDelete {α : Type} (m : List (String × α)) (k : String) : List (String × α) :=
  m.filter (fun e => ! (e.1 == k))

/-- The server's mutable state: the single DB row `loginParameter`
(public key `X` of row id 1, absent before registration) and the two
in-memory maps `loginChallenges` and `sessions`. -/
structure ServerState where
  loginParameter : Option Nat
  loginChallenges : List (String × LoginChallenge)
  sessions : List (String × SessionData)
  deriving Repr, DecidableEq

/-- `cleanupExpiredChallenges()`: sweeps every challenge and session
entry with `now > expiresAt`; `now` is the `Date.now()` value. -/
def cleanupExpiredChallenges (st : ServerState) (now : Nat) : ServerState :=
  { st with
    loginChallenges := st.loginChallenges.filter (fun e => ! decide (now > e.2.expiresAt))
    sessions := st.sessions.filter (fun e => ! decide (now > e.2.expiresAt)) }

/-- Result object of `loginStep1`. -/
structure Step1Result where
  success : Bool
  challenge : Option Nat
  sessionId : Option String
  error : Option String
  deriving Repr, DecidableEq

/-- Result object of `loginStep2`. -/
structure Step2Result where
  success : Bool
  sessionToken : Option String
  error : Option String
  deriving Repr, DecidableEq

/-- Result object of `changePassphrase`. -/
structure ChangeResult where
  success : Bool
  error : Option String
  deriving Repr, DecidableEq

/-- `loginStep1(V)`: `now` is `Date.now()`; `c` is the challenge drawn by
`getSecureRandomBigInt(1n, q-1n)` and `sessionId` the fresh `randomUUID()`,
both passed as oracle parameters. -/
def loginStep1 (st : ServerState) (now : Nat) (V : Nat) (c : Nat) (sessionId : String) :
    ServerState × Step1Result :=
  match st.loginParameter with
  | none => (st, { success := false, challenge := none, sessionId := none,
                   error := some "No public key registered. Please register first." })
  | some _ =>
    let entry : LoginChallenge := { V := V, c := c, expiresAt := now + CHALLENGE_EXPIRY_MS }
    let st1 := { st with loginChallenges := mapSet st.loginChallenges sessionId entry }
    let st2 := cleanupExpiredChallenges st1 now
    (st2, { success := true, challenge := some c, sessionId := some sessionId,
            error := none })

/-- `loginStep2(sessionId, b)`: `now` is `Date.now()`, `sessionToken` the
fresh `randomUUID()` minted on success. -/
def loginStep2 (st : ServerState) (now : Nat) (sessionToken : String)
    (sessionId : String) (b : Nat) : ServerState × Step2Result :=
  match mapGet st.loginChallenges sessionId with
  | none => (st, { success := false, sessionToken := none,
                   error := some "Invalid or expired session. Please try logging in again." })
  | some challengeData =>
    if now > challengeData.expiresAt then
      ({ st with loginChallenges := mapDelete st.loginChallenges sessionId },
       { success := false, sessionToken := none,
         error := some "Challenge expired. Please try logging in again." })
    else
      match st.loginParameter with
      | none =>
        ({ st with loginChallenges := mapDelete st.loginChallenges sessionId },
         { success := false, sessionToken := none,
           error := some "No public key registered." })
      | some X =>
        let isValid := serverVerify challengeData.V X challengeData.c b
        let st1 := { st with loginChallenges := mapDelete st.loginChallenges sessionId }
        if !isValid then
          (st1, { success := false, sessionToken := none,
                  error := some "Authentication failed. Invalid proof." })
        else
          let newSession : SessionData := { expiresAt := now + SESSION_EXPIRY_MS }
          let st2 := { st1 with sessions := mapSet st1.sessions sessionToken newSession }
          let st3 := cleanupExpiredChallenges st2 now
          (st3, { success := true, sessionToken := some sessionToken, error := none })

/-- JS falsiness of the `sessionToken` argument: `null`/`undefined` or
the empty string. -/
def strFalsy : Option String → Bool
  | none => true
  | some s => s == ""

/-- `verifySession(sessionToken)`: `now` is `Date.now()`. -/
def verifySession (st : ServerState) (now : Nat) (sessionToken : Option String) :
    ServerState × Bool :=
  match sessionToken with
  | none => (st, false)
  | some t =>
    if t = "" then (st, false)
    else
      let st1 := cleanupExpiredChallenges st now
      match mapGet st1.sessions t with
      | none => (st1, false)
      | some session =>
        if now > session.expiresAt then
          ({ st1 with sessions := mapDelete st1.sessions t }, false)
        else (st1, true)

/-- `changePassphrase(sessionToken, newPublicKeyX)`: verifies the
session, requires an existing identity row, overwrites the public key
and clears the whole session map. -/
def changePassphrase (st : ServerState) (now : Nat) (sessionToken : Option String)
    (newPublicKeyX : Nat) : ServerState × ChangeResult :=
  if strFalsy sessionToken then
    (st, { success := false, error := some "Authentication required" })
  else
    let res := verifySession st now sessionToken
    if !res.2 then
      (res.1, { success := false,
                error := some "Invalid or expired session. Please login again." })
    else
      match res.1.loginParameter with
      | none => (res.1, { success := false,
                          error := some "No public key found. Please register first." })
      | some _ =>
        ({ res.1 with loginParameter := some newPublicKeyX, sessions := [] },
         { success := true, error := none })

/-! ### One-time challenges, session invalidation, sweeping -/

theorem find?_filter_none {α : Type} (q p : α → Bool) (l : List α)
    (h : l.find? q = none) : (l.filter p).find? q = none := by
  induction l with
  | nil => rfl
  | cons e tl ih =>
    cases hq : q e with
    | true => rw [List.find?_cons_of_pos _ hq] at h; cases h
    | false =>
      rw [List.find?_cons_of_neg _ (by simp [hq])] at h
      rw [List.filter_cons]
      by_cases hp : p e
      · rw [if_pos hp, List.find?_cons_of_neg _ (by simp [hq])]
        exact ih h
      · rw [if_neg hp]
        exact ih h

theorem mapGet_mapDelete {α : Type} (m : List (String × α)) (k : String) :
    mapGet (mapDelete m k) k = none := by
  simp only [mapGet, mapDelete, Option.map_eq_none']
  induction m with
  | nil => rfl
  | cons e tl ih =>
    rw [List.filter_cons]
    cases he : (e.1 == k) with
    | true =>
      simp only [he, Bool.not_true, if_false]
      exact ih
    | false =>
      simp only [he, Bool.not_false, if_true]
      rw [List.find?_cons_of_neg _ (by simp [he])]
      exact ih

theorem mapGet_filter_none {α : Type} (m : List (String × α)) (k : String)
    (p : String × α → Bool) (h : mapGet m k = none) :
    mapGet (m.filter p) k = none := by
  simp only [mapGet, Option.map_eq_none'] at h ⊢
  exact find?_filter_none _ p m h

/-- C4: one-time challenge consumption.  If the challenge lookup for
`sessionId` succeeds (whatever `loginStep2` then returns — expired,
missing identity, failed or passed verification), the stored challenge is
deleted, and any second `loginStep2` call with the same `sessionId`
returns `success = false` for every response supplied. -/
theorem loginStep2_consumes_challenge :
    ∀ (st : ServerState) (now : Nat) (tok sid : String) (b : Nat),
      (mapGet st.loginChallenges sid).isSome = true →
      mapGet ((loginStep2 st now tok sid b).1).loginChallenges sid = none
      ∧ ∀ (now' : Nat) (tok' : String) (b' : Nat),
          ((loginStep2 (loginStep2 st now tok sid b).1 now' tok' sid b').2).success
            = false := by
  intro st now tok sid b hsome
  have key : mapGet ((loginStep2 st now tok sid b).1).loginChallenges sid = none := by
    cases hget : mapGet st.loginChallenges sid with
    | none => rw [hget] at hsome; cases hsome
    | some cd =>
      simp only [loginStep2, hget]
      split
      · exact mapGet_mapDelete _ _
      · split
        · exact mapGet_mapDelete _ _
        · split
          · exact mapGet_mapDelete _ _
          · exact mapGet_filter_none _ _ _ (mapGet_mapDelete _ _)
  refine ⟨key, ?_⟩
  intro now' tok' b'
  set st2 := (loginStep2 st now tok sid b).1 with hst2
  simp [loginStep2, key]

/-- Witness for C4: a fresh challenge stored under "s" is gone after one
`loginStep2` call for "s". -/
theorem loginStep2_consumes_challenge_witness :
    mapGet ((loginStep2
        { loginParameter := some 1,
          loginChallenges := [("s", { V := 1, c := 1, expiresAt := 100 })],
          sessions := [] } 0 "t" "s" 0).1).loginChallenges "s" = none :=
  (loginStep2_consumes_challenge
    { loginParameter := some 1,
      loginChallenges := [("s", { V := 1, c := 1, expiresAt := 100 })],
      sessions := [] } 0 "t" "s" 0 (by decide)).1

theorem verifySession_of_empty_sessions (st : ServerState) (hs : st.sessions = [])
    (now : Nat) (t : Option String) : (verifySession st now t).2 = false := by
  cases t with
  | none => rfl
  | some s =>
    simp only [verifySession]
    split_ifs with hempty
    · rfl
    · have hnone : mapGet (cleanupExpiredChallenges st now).sessions s = none := by
        simp [cleanupExpiredChallenges, hs, mapGet]
      rw [hnone]

/-- C7: whenever `changePassphrase` reports success, the identity row's
public key has been replaced by the submitted key and the session map has
been cleared, so `verifySession` afterwards returns false for every
token. -/
theorem changePassphrase_replaces_key_and_clears_sessions :
    ∀ (st : ServerState) (now : Nat) (tok : Option String) (newX : Nat),
      ((changePassphrase st now tok newX).2).success = true →
      (changePassphrase st now tok newX).1.loginParameter = some newX
      ∧ (changePassphrase st now tok newX).1.sessions = []
      ∧ ∀ (t : Option String) (now' : Nat),
          (verifySession (changePassphrase st now tok newX).1 now' t).2 = false := by
  intro st now tok newX hsucc
  simp only [changePassphrase] at hsucc ⊢
  by_cases h1 : strFalsy tok = true
  · rw [if_pos h1] at hsucc
    exact absurd hsucc (by simp)
  · rw [if_neg h1] at hsucc ⊢
    by_cases h2 : (!(verifySession st now tok).2) = true
    · rw [if_pos h2] at hsucc
      exact absurd hsucc (by simp)
    · rw [if_neg h2] at hsucc ⊢
      revert hsucc
      cases hlp : ((verifySession st now tok).1).loginParameter with
      | none =>
        intro hsucc
        exact absurd hsucc (by simp)
      | some X =>
        intro hsucc
        refine ⟨rfl, rfl, ?_⟩
        intro t now'
        exact verifySession_of_empty_sessions _ rfl now' t

/-- Witness for C7: a concrete successful passphrase change replaces the
stored public key with the submitted one. -/
theorem changePassphrase_replaces_key_witness :
    (changePassphrase
        { loginParameter := some 1, loginChallenges := [],
          sessions := [("t", { expiresAt := 100 })] } 0 (some "t") 9).1.loginParameter
      = some 9 :=
  (changePassphrase_replaces_key_and_clears_sessions
    { loginParameter := some 1, loginChallenges := [],
      sessions := [("t", { expiresAt := 100 })] } 0 (some "t") 9 (by decide)).1

/-- No entry of either map has an expiry timestamp strictly earlier than
`now`. -/
def noExpiredEntries (st : ServerState) (now : Nat) : Prop :=
  (∀ e ∈ st.loginChallenges, ¬ e.2.expiresAt < now)
  ∧ (∀ e ∈ st.sessions, ¬ e.2.expiresAt < now)

theorem cleanup_clears_expired (st : ServerState) (now : Nat) :
    noExpiredEntries (cleanupExpiredChallenges st now) now := by
  constructor <;> intro e he <;>
  · simp only [cleanupExpiredChallenges] at he
    have hpe := List.of_mem_filter he
    simp only [Bool.not_eq_true', decide_eq_false_iff_not] at hpe
    omega

theorem noExpired_mapDelete_sessions (st : ServerState) (now : Nat) (k : String)
    (h : noExpiredEntries st now) :
    noExpiredEntries { st with sessions := mapDelete st.sessions k } now :=
  ⟨h.1, fun e he => h.2 e (List.mem_of_mem_filter he)⟩

/-- C10 (amended): after any `loginStep1` call made while an identity is
registered, and after any `verifySession` call with a truthy (non-null,
non-empty) token, neither the challenge map nor the session map contains
an entry whose expiry timestamp is earlier than the call time.  (The
original claim fails: `loginStep1` returns before sweeping when no
identity is registered, and `verifySession` returns before sweeping on a
null/empty token; see the counterexample.) -/
theorem sweep_on_entry_guarded_calls :
    ∀ (st : ServerState) (now : Nat) (V c : Nat) (sid : String) (tok : Option String),
      (st.loginParameter.isSome = true →
        noExpiredEntries ((loginStep1 st now V c sid).1) now)
      ∧ (strFalsy tok = false →
        noExpiredEntries ((verifySession st now tok).1) now) := by
  intro st now V c sid tok
  constructor
  · intro hsome
    cases hlp : st.loginParameter with
    | none => rw [hlp] at hsome; cases hsome
    | some X =>
      simp only [loginStep1, hlp]
      exact cleanup_clears_expired _ _
  · intro htok
    cases tok with
    | none => simp [strFalsy] at htok
    | some t =>
      have ht : ¬ (t = "") := by simpa [strFalsy] using htok
      simp only [verifySession]
      rw [if_neg ht]
      cases hget : mapGet (cleanupExpiredChallenges st now).sessions t with
      | none => exact cleanup_clears_expired _ _
      | some session =>
        dsimp only
        split_ifs with hexp
        · exact noExpired_mapDelete_sessions _ _ _ (cleanup_clears_expired _ _)
        · exact cleanup_clears_expired _ _

/-- Counterexample to C10 as stated: with no identity registered,
`loginStep1` returns before the sweep, so an already-expired challenge
(expiry 0, call time 1) survives the call. -/
theorem sweep_claim_counterexample :
    ¬ noExpiredEntries ((loginStep1
        { loginParameter := none,
          loginChallenges := [("s", { V := 1, c := 1, expiresAt := 0 })],
          sessions := [] } 1 1 1 "sid").1) 1 := by
  intro h
  exact absurd (h.1 ("s", { V := 1, c := 1, expiresAt := 0 }) (by simp [loginStep1]))
    (by decide)

/-- Witness for amended C10: with an identity registered, the same
expired challenge is swept by the `loginStep1` call. -/
theorem sweep_on_entry_guarded_calls_witness :
    noExpiredEntries ((loginStep1
        { loginParameter := some 1,
          loginChallenges := [("s", { V := 1, c := 1, expiresAt := 0 })],
          sessions := [] } 1 1 1 "sid").1) 1 :=
  (sweep_on_entry_guarded_calls
    { loginParameter := some 1,
      loginChallenges := [("s", { V := 1, c := 1, expiresAt := 0 })],
      sessions := [] } 1 1 1 "sid" none).1 (by decide)

/-! ## Upload integrity checks: `UploadEncrypted` in `src/lib/utils/crypto.ts`

`sha256b64` abstracts `createHash("sha256").update(bytes).digest("base64")`;
`utf8Encode` abstracts `Buffer.from(string)` (UTF-8 encoding); `uploadFn`
abstracts the external `utUploadMultiFile` call to the storage backends.
The preceding `requireAuth` and missing-field checks are modelled as
already passed (they reject before any integrity check and never insert). -/

/-- The `chunk.data` object of an UploadThing upload result: the `key`
may be absent, which `UploadEncrypted` treats as an upload failure. -/
structure UploadedFileData where
  key : Option String
  name : String
  ufsUrl : String
  deriving Repr, DecidableEq

/-- A chunk descriptor stored in the upload record. -/
structure UploadPartRec where
  key : String
  name : String
  url : String
  hash : String
  deriving Repr, DecidableEq

/-- The parsed `meta` JSON field. -/
structure UploadMeta where
  filename : String
  size : Nat
  mime : String
  deriving Repr, DecidableEq

/-- The row inserted into the `uploads` table. -/
structure UploadRecord where
  originalFileName : String
  mimeType : String
  originalSize : Nat
  uploadParts : List UploadPartRec
  fileHash : String
  deriving Repr, DecidableEq

/-- Stable insertion of a `(index, bytes)` entry, keeping earlier
entries with the same index first. -/
def insertByIndex (e : Nat × List Nat) : List (Nat × List Nat) → List (Nat × List Nat)
  | [] => [e]
  | f :: rest => if e.1 < f.1 then e :: f :: rest else f :: insertByIndex e rest

/-- `chunkEntries.sort((a, b) => a.index - b.index)`: stable sort by the
index parsed from the `chunk<i>` form-field name. -/
def sortByIndex : List (Nat × List Nat) → List (Nat × List Nat)
  | [] => []
  | e :: rest => insertByIndex e (sortByIndex rest)

/-- The `Promise.all` chunk-hash verification: the first index whose
recomputed hash differs from the claimed one, if any. -/
def firstChunkMismatch (sha256b64 : List Nat → String) (entries : List (List Nat))
    (chunkHashes : List String) : Option Nat :=
  (List.range entries.length).find?
    (fun i => ! (sha256b64 (entries.getD i []) == chunkHashes.getD i ""))

/-- The `uploadResults.map` step building the chunk descriptors, failing
on a missing key. -/
def buildUploadParts (chunkHashes : List String) :
    List UploadedFileData → Nat → Except String (List UploadPartRec)
  | [], _ => .ok []
  | d :: rest, i =>
    match d.key with
    | none => .error ("Failed to upload chunk: Missing key for " ++ d.name)
    | some k =>
      (buildUploadParts chunkHashes rest (i + 1)).map
        (fun parts => { key := k, name := d.name, url := d.ufsUrl,
                        hash := chunkHashes.getD i "" } :: parts)

/-- `UploadEncrypted(formData)` from `crypto.ts`: collects the `chunk<i>`
parts sorted by index, rejects on chunk-count mismatch, rejects if any
recomputed chunk hash differs from the claimed one, uploads, rejects if
the recomputed file-level hash (SHA-256 of the UTF-8 concatenation of the
claimed base64 chunk hashes) differs from the claimed `file_hash`, and
only then inserts the upload record. -/
def UploadEncrypted (sha256b64 : List Nat → String) (utf8Encode : String → List Nat)
    (uploadFn : List (List Nat) → List UploadedFileData)
    (meta : UploadMeta) (fileHash : String) (chunkHashes : List String)
    (formChunks : List (Nat × List Nat)) : Except String UploadRecord :=
  let chunkEntries := sortByIndex formChunks
  let entries := chunkEntries.map (fun e => e.2)
  if entries.length ≠ chunkHashes.length then
    .error "Chunk count does not match hash count"
  else
    match firstChunkMismatch sha256b64 entries chunkHashes with
    | some i => .error ("Chunk " ++ toString i ++ " hash mismatch")
    | none =>
      let uploadResults := uploadFn entries
      match buildUploadParts chunkHashes uploadResults 0 with
      | .error e => .error e
      | .ok fileChunksDetails =>
        let combinedHash := sha256b64 (utf8Encode (String.join chunkHashes))
        if combinedHash ≠ fileHash then .error "file_hash mismatch"
        else
          .ok { originalFileName := meta.filename, mimeType := meta.mime,
                originalSize := meta.size, uploadParts := fileChunksDetails,
                fileHash := fileHash }

theorem uploadEncrypted_ok_checks (sha256b64 : List Nat → String)
    (utf8Encode : String → List Nat) (uploadFn : List (List Nat) → List UploadedFileData)
    (meta : UploadMeta) (fileHash : String) (chunkHashes : List String)
    (formChunks : List (Nat × List Nat)) (rec : UploadRecord)
    (h : UploadEncrypted sha256b64 utf8Encode uploadFn meta fileHash chunkHashes formChunks
      = .ok rec) :
    ((sortByIndex formChunks).map (fun e => e.2)).length = chunkHashes.length
    ∧ (∀ i, i < ((sortByIndex formChunks).map (fun e => e.2)).length →
        sha256b64 (((sortByIndex formChunks).map (fun e => e.2)).getD i [])
          = chunkHashes.getD i "")
    ∧ sha256b64 (utf8Encode (String.join chunkHashes)) = fileHash := by
  simp only [UploadEncrypted] at h
  by_cases hlen : ((sortByIndex formChunks).map (fun e => e.2)).length ≠ chunkHashes.length
  · rw [if_pos hlen] at h
    exact absurd h (by simp)
  · rw [if_neg hlen] at h
    cases hmis : firstChunkMismatch sha256b64 ((sortByIndex formChunks).map (fun e => e.2))
        chunkHashes with
    | some i =>
      rw [hmis] at h
      exact absurd h (by simp)
    | none =>
      rw [hmis] at h
      cases hbp : buildUploadParts chunkHashes
          (uploadFn ((sortByIndex formChunks).map (fun e => e.2))) 0 with
      | error e =>
        rw [hbp] at h
        exact absurd h (by simp)
      | ok parts =>
        rw [hbp] at h
        dsimp only at h
        by_cases hfh : sha256b64 (utf8Encode (String.join chunkHashes)) ≠ fileHash
        · rw [if_pos hfh] at h
          exact absurd h (by simp)
        · refine ⟨by omega, ?_, not_not.mp hfh⟩
          intro i hi
          have hmem : i ∈ List.range ((sortByIndex formChunks).map (fun e => e.2)).length :=
            List.mem_range.mpr hi
          have hfind := List.find?_eq_none.mp hmis i hmem
          simp only [Bool.not_eq_true', Bool.not_eq_false, beq_iff_eq] at hfind
          exact hfind

/-- C5: `UploadEncrypted` rejects (and inserts no upload record) whenever
the number of chunk parts differs from the number of claimed hashes, or
any recomputed chunk hash differs from the claimed one, or the recomputed
file-level hash (SHA-256 of the UTF-8 concatenation of the base64
chunk-hash strings in chunk order) differs from the claimed file hash;
and it returns an inserted record only when all three checks pass. -/
theorem UploadEncrypted_integrity_gate :
    ∀ (sha256b64 : List Nat → String) (utf8Encode : String → List Nat)
      (uploadFn : List (List Nat) → List UploadedFileData)
      (meta : UploadMeta) (fileHash : String) (chunkHashes : List String)
      (formChunks : List (Nat × List Nat)),
      ((((sortByIndex formChunks).map (fun e => e.2)).length ≠ chunkHashes.length
          ∨ (∃ i, i < ((sortByIndex formChunks).map (fun e => e.2)).length
              ∧ sha256b64 (((sortByIndex formChunks).map (fun e => e.2)).getD i [])
                  ≠ chunkHashes.getD i "")
          ∨ sha256b64 (utf8Encode (String.join chunkHashes)) ≠ fileHash) →
        ∃ err, UploadEncrypted sha256b64 utf8Encode uploadFn meta fileHash chunkHashes
            formChunks = .error err)
      ∧ (∀ rec, UploadEncrypted sha256b64 utf8Encode uploadFn meta fileHash chunkHashes
            formChunks = .ok rec →
          ((sortByIndex formChunks).map (fun e => e.2)).length = chunkHashes.length
          ∧ (∀ i, i < ((sortByIndex formChunks).map (fun e => e.2)).length →
              sha256b64 (((sortByIndex formChunks).map (fun e => e.2)).getD i [])
                = chunkHashes.getD i "")
          ∧ sha256b64 (utf8Encode (String.join chunkHashes)) = fileHash) := by
  intro sha256b64 utf8Encode uploadFn meta fileHash chunkHashes formChunks
  constructor
  · intro hbad
    cases hres : UploadEncrypted sha256b64 utf8Encode uploadFn meta fileHash chunkHashes
        formChunks with
    | error e => exact ⟨e, rfl⟩
    | ok rec =>
      obtain ⟨h1, h2, h3⟩ := uploadEncrypted_ok_checks sha256b64 utf8Encode uploadFn meta
        fileHash chunkHashes formChunks rec hres
      rcases hbad with hb | ⟨i, hi, hb⟩ | hb
      · exact absurd h1 hb
      · exact absurd (h2 i hi) hb
      · exact absurd h3 hb
  · intro rec hres
    exact uploadEncrypted_ok_checks sha256b64 utf8Encode uploadFn meta fileHash chunkHashes
      formChunks rec hres

/-- Witness for C5: a zero-chunk upload whose claimed file hash matches
the recomputed one passes all three checks and yields a record. -/
theorem UploadEncrypted_integrity_gate_witness :
    (0 = 0) ∧ (∀ i : Nat, i < 0 → "h" = "") ∧ "h" = "h" :=
  (UploadEncrypted_integrity_gate (fun _ => "h") (fun _ => []) (fun _ => [])
      { filename := "f", size := 1, mime := "m" } "h" [] []).2
    { originalFileName := "f", mimeType := "m", originalSize := 1,
      uploadParts := [], fileHash := "h" } (by decide)
